import Mathlib

/-!
# Ante-handler construction in `app/ante.go`

A shallow embedding of `NewLazyAnteHandler` and `NewAnteHandler` from
`app/ante.go`, and the properties of the step lists they assemble.

Conventions of the embedding:

* a Go value that may be `nil` (interface value, pointer, function value) is an
  `Option` of a handle; `nil` is `none`;
* a Go `panic` is the `error` side of `Except Panic`;
* the Go result pair `(sdk.AnteHandler, error)` is a pair of options;
* the decorator constructors of the imported packages are data constructors of
  `AnteDecorator`, applied to the arguments the source passes to them; the one
  constructor that can abort, `wasmkeeper.NewLimitSimulationGasDecorator`, is a
  function into `Except Panic`.
-/

namespace Lazychain

/-! ## Collaborators -/

/-- A reference to an external service; only its identity matters here. -/
structure Handle where
  id : Nat
  deriving DecidableEq, Repr

/-- The Go type `ante.AccountKeeper` (interface value, may be nil). -/
abbrev AccountKeeper := Option Handle
/-- The Go type `types.BankKeeper` (interface value, may be nil). -/
abbrev BankKeeper := Option Handle
/-- The Go type `ante.FeegrantKeeper` (interface value, may be nil). -/
abbrev FeegrantKeeper := Option Handle
/-- The Go type `*txsigning.HandlerMap` (pointer, may be nil). -/
abbrev SignModeHandler := Option Handle
/-- The Go type `ante.ExtensionOptionChecker` (function value, may be nil). -/
abbrev ExtensionOptionChecker := Option Handle
/-- The Go type `ante.SignatureVerificationGasConsumer` (function value, may be nil). -/
abbrev SigGasConsumer := Option Handle
/-- The Go type `ante.TxFeeChecker` (function value, may be nil). -/
abbrev TxFeeChecker := Option Handle
/-- The Go type `*keeper.Keeper` of ibc-go (pointer, may be nil). -/
abbrev IBCKeeper := Option Handle
/-- The Go type `corestoretypes.KVStoreService` (interface value, may be nil). -/
abbrev KVStoreService := Option Handle
/-- The Go type `*circuitkeeper.Keeper` (pointer, may be nil). -/
abbrev CircuitKeeper := Option Handle
/-- The Go type `pepante.KeyShareLane` (interface value, may be nil). -/
abbrev KeyShareLane := Option Handle
/-- The Go type `sdk.TxDecoder` (function value, may be nil). -/
abbrev TxDecoder := Option Handle
/-- The Go type `sdk.TxEncoder` (function value, may be nil). -/
abbrev TxEncoder := Option Handle
/-- The Go type `pepkeeper.Keeper` (a struct value, never nil). -/
abbrev PepKeeper := Handle
/-- The Go type `wasmTypes.GasRegister` as returned by `GetGasRegister` (interface value). -/
abbrev GasRegister := Option Handle

/-- The Go struct `wasmTypes.WasmConfig`; the source reads only
`SimulationGasLimit`, a `*uint64`. -/
structure WasmConfig where
  SimulationGasLimit : Option Nat
  deriving DecidableEq, Repr

/-- The Go struct `wasmkeeper.Keeper`; the source reads only its gas register. -/
structure WasmKeeper where
  gasRegister : GasRegister
  deriving DecidableEq, Repr

/-- The Go struct `ante.HandlerOptions` of the auth module, with the fields the
source reads. -/
structure ante.HandlerOptions where
  AccountKeeper : AccountKeeper
  BankKeeper : BankKeeper
  ExtensionOptionChecker : ExtensionOptionChecker
  FeegrantKeeper : FeegrantKeeper
  SignModeHandler : SignModeHandler
  SigGasConsumer : SigGasConsumer
  TxFeeChecker : TxFeeChecker
  deriving DecidableEq, Repr

/-- The struct `LazyHandlerOptions` (ante.go, lines 21-28). `wasmConfig` and
`PepKeeper` are struct values, the other added fields may be nil. -/
structure LazyHandlerOptions where
  BaseOptions : ante.HandlerOptions
  wasmConfig : WasmConfig
  KeyShareLane : KeyShareLane
  TxDecoder : TxDecoder
  TxEncoder : TxEncoder
  PepKeeper : PepKeeper
  deriving DecidableEq, Repr

/-- The struct `HandlerOptions` (ante.go, lines 75-83): it embeds
`ante.HandlerOptions` and adds five nil-able references. -/
structure HandlerOptions extends ante.HandlerOptions where
  IBCKeeper : IBCKeeper
  WasmConfig : Option WasmConfig
  WasmKeeper : Option WasmKeeper
  TXCounterStoreService : KVStoreService
  CircuitKeeper : CircuitKeeper
  deriving DecidableEq, Repr

/-! ## Decorators -/

/-- An `sdk.AnteDecorator` value. Each constructor stands for one constructor
function of an imported package, applied to the arguments of the call. -/
inductive AnteDecorator
  | NewSetUpContextDecorator
  | NewLimitSimulationGasDecorator (gasLimit : Option Nat)
  | NewCountTXDecorator (s : KVStoreService)
  | NewGasRegisterDecorator (gr : GasRegister)
  | NewCircuitBreakerDecorator (ck : CircuitKeeper)
  | NewExtensionOptionsDecorator (checker : ExtensionOptionChecker)
  | NewValidateBasicDecorator
  | NewTxTimeoutHeightDecorator
  | NewValidateMemoDecorator (ak : AccountKeeper)
  | NewConsumeGasForTxSizeDecorator (ak : AccountKeeper)
  | NewDeductFeeDecorator (ak : AccountKeeper) (bk : BankKeeper) (fk : FeegrantKeeper)
      (tfc : TxFeeChecker)
  | NewSetPubKeyDecorator (ak : AccountKeeper)
  | NewValidateSigCountDecorator (ak : AccountKeeper)
  | NewSigGasConsumeDecorator (ak : AccountKeeper) (sgc : SigGasConsumer)
  | NewSigVerificationDecorator (ak : AccountKeeper) (smh : SignModeHandler)
  | NewIncrementSequenceDecorator (ak : AccountKeeper)
  | NewRedundantRelayDecorator (k : IBCKeeper)
  | NewPepDecorator (pk : PepKeeper) (enc : TxEncoder) (lane : KeyShareLane)
  deriving DecidableEq, Repr

/-- The ways a builder can abort instead of returning. -/
inductive Panic
  | message (msg : String)
  | nilDereference
  deriving DecidableEq, Repr

/-- The call `options.WasmKeeper.GetGasRegister()` (ante.go, line 110): the
method reads the gas register of its receiver, so a nil receiver aborts with a
nil-pointer dereference. -/
def GetGasRegister : Option WasmKeeper → Except Panic GasRegister
  | none => .error .nilDereference
  | some k => .ok k.gasRegister

/-- The imported constructor `wasmkeeper.NewLimitSimulationGasDecorator`, called
at ante.go lines 50 and 108. It accepts a nil limit; given a pointer to zero it
aborts with `gas limit must not be zero`; otherwise it returns the decorator
holding the limit. -/
def wasmkeeper.NewLimitSimulationGasDecorator (gasLimit : Option Nat) :
    Except Panic AnteDecorator :=
  if gasLimit = some 0 then .error (.message "gas limit must not be zero")
  else .ok (.NewLimitSimulationGasDecorator gasLimit)

/-! ## The chained handler -/

/-- An `sdk.AnteHandler` produced by chaining: it holds the step list it was
built from. -/
structure AnteHandler where
  chain : List AnteDecorator
  deriving DecidableEq, Repr

/-- Modelled from the spec: `sdk.ChainAnteDecorators` is imported from the SDK
and is not part of `app/ante.go`. Following section 4.2, the result is one
composed handler that interprets the given ordered list of steps. -/
def ChainAnteDecorators (chain : List AnteDecorator) : AnteHandler :=
  ⟨chain⟩

/-- One call of a step by the executor: the position of the step in the list,
the step, the context handed to it and the mode flag handed to it. -/
structure Invocation (Ctx : Type) where
  index : Nat
  step : AnteDecorator
  ctx : Ctx
  simulate : Bool

/-- Modelled from the spec: the executor loop of section 4.2, which
`app/ante.go` obtains from `sdk.ChainAnteDecorators`. For each step in order,
invoke it with the current context, the transaction and the mode flag; on
failure stop and return that error unmodified; on success continue with the
returned context; after the last step return the final context. `run` is the
uniform step contract of section 6; the first component of the result records
the invocations made, in order. -/
def runChain {Ctx Tx Err : Type} (run : AnteDecorator → Ctx → Tx → Bool → Except Err Ctx)
    (tx : Tx) (simulate : Bool) :
    List AnteDecorator → Nat → Ctx → List (Invocation Ctx) × Except Err Ctx
  | [], _, ctx => ([], .ok ctx)
  | d :: ds, i, ctx =>
    match run d ctx tx simulate with
    | .error e => ([⟨i, d, ctx, simulate⟩], .error e)
    | .ok ctx' =>
      let r := runChain run tx simulate ds (i + 1) ctx'
      (⟨i, d, ctx, simulate⟩ :: r.1, r.2)

/-- Modelled from the spec: the contract `process(transaction, mode)` of the
chained handler (section 4.2), started from the context `ctx`. -/
def AnteHandler.process {Ctx Tx Err : Type} (h : AnteHandler)
    (run : AnteDecorator → Ctx → Tx → Bool → Except Err Ctx)
    (ctx : Ctx) (tx : Tx) (simulate : Bool) : List (Invocation Ctx) × Except Err Ctx :=
  runChain run tx simulate h.chain 0 ctx

/-! ## The builders -/

/-- The function `NewLazyAnteHandler` (ante.go, lines 31-71). The elements of
the list literal are evaluated in order, so the call at line 50 may abort
before the list exists. -/
def NewLazyAnteHandler (options : LazyHandlerOptions) : Except Panic AnteHandler :=
  if options.BaseOptions.AccountKeeper = none then
    .error (.message "account keeper is required for ante builder")
  else if options.BaseOptions.BankKeeper = none then
    .error (.message "bank keeper is required for ante builder")
  else if options.BaseOptions.SignModeHandler = none then
    .error (.message "sign mode handler is required for ante builder")
  else if options.BaseOptions.FeegrantKeeper = none then
    .error (.message "fee grant keeper is required for ante builder")
  else
    match wasmkeeper.NewLimitSimulationGasDecorator options.wasmConfig.SimulationGasLimit with
    | .error p => .error p
    | .ok limitSimulationGas =>
      let anteDecorators : List AnteDecorator := [
        .NewSetUpContextDecorator,
        limitSimulationGas,
        .NewExtensionOptionsDecorator options.BaseOptions.ExtensionOptionChecker,
        .NewValidateBasicDecorator,
        .NewTxTimeoutHeightDecorator,
        .NewValidateMemoDecorator options.BaseOptions.AccountKeeper,
        .NewConsumeGasForTxSizeDecorator options.BaseOptions.AccountKeeper,
        .NewDeductFeeDecorator
          options.BaseOptions.AccountKeeper
          options.BaseOptions.BankKeeper
          options.BaseOptions.FeegrantKeeper
          options.BaseOptions.TxFeeChecker,
        .NewSetPubKeyDecorator options.BaseOptions.AccountKeeper,
        .NewValidateSigCountDecorator options.BaseOptions.AccountKeeper,
        .NewSigGasConsumeDecorator options.BaseOptions.AccountKeeper
          options.BaseOptions.SigGasConsumer,
        .NewSigVerificationDecorator options.BaseOptions.AccountKeeper
          options.BaseOptions.SignModeHandler,
        .NewIncrementSequenceDecorator options.BaseOptions.AccountKeeper,
        .NewPepDecorator options.PepKeeper options.TxEncoder options.KeyShareLane
      ]
      .ok (ChainAnteDecorators anteDecorators)

/-- The function `NewAnteHandler` (ante.go, lines 86-127). The result pair is
`(handler, error)`. The elements of the list literal are evaluated in order:
the call at line 108 may abort first, then the call at line 110. -/
def NewAnteHandler (options : HandlerOptions) :
    Except Panic (Option AnteHandler × Option String) :=
  if options.AccountKeeper = none then
    .ok (none, some "account keeper is required for ante builder")
  else if options.BankKeeper = none then
    .ok (none, some "bank keeper is required for ante builder")
  else if options.SignModeHandler = none then
    .ok (none, some "sign mode handler is required for ante builder")
  else
    match options.WasmConfig with
    | none => .ok (none, some "wasm config is required for ante builder")
    | some wasmConfig =>
      if options.TXCounterStoreService = none then
        .ok (none, some "wasm store service is required for ante builder")
      else if options.CircuitKeeper = none then
        .ok (none, some "circuit keeper is required for ante builder")
      else
        match wasmkeeper.NewLimitSimulationGasDecorator wasmConfig.SimulationGasLimit with
        | .error p => .error p
        | .ok limitSimulationGas =>
          match GetGasRegister options.WasmKeeper with
          | .error p => .error p
          | .ok gasRegister =>
            let anteDecorators : List AnteDecorator := [
              .NewSetUpContextDecorator,
              limitSimulationGas,
              .NewCountTXDecorator options.TXCounterStoreService,
              .NewGasRegisterDecorator gasRegister,
              .NewCircuitBreakerDecorator options.CircuitKeeper,
              .NewExtensionOptionsDecorator options.ExtensionOptionChecker,
              .NewValidateBasicDecorator,
              .NewTxTimeoutHeightDecorator,
              .NewValidateMemoDecorator options.AccountKeeper,
              .NewConsumeGasForTxSizeDecorator options.AccountKeeper,
              .NewDeductFeeDecorator options.AccountKeeper options.BankKeeper
                options.FeegrantKeeper options.TxFeeChecker,
              .NewSetPubKeyDecorator options.AccountKeeper,
              .NewValidateSigCountDecorator options.AccountKeeper,
              .NewSigGasConsumeDecorator options.AccountKeeper options.SigGasConsumer,
              .NewSigVerificationDecorator options.AccountKeeper options.SignModeHandler,
              .NewIncrementSequenceDecorator options.AccountKeeper,
              .NewRedundantRelayDecorator options.IBCKeeper
            ]
            .ok (some (ChainAnteDecorators anteDecorators), none)

/-! ## The documented orderings -/

/-- The steps named by the specification (sections 4.3 and 4.4). -/
inductive StepKind
  | contextSetup
  | simulationGasLimiting
  | contractTxCounting
  | gasRegisterAdjustment
  | circuitBreakerGate
  | extensionOptionsCheck
  | basicValidation
  | timeoutHeightCheck
  | memoValidation
  | txSizeGasConsumption
  | feeDeduction
  | publicKeyResolution
  | signatureCountValidation
  | signatureVerificationGasConsumption
  | signatureVerification
  | sequenceIncrement
  | redundantRelayCheck
  | keyShareLane
  deriving DecidableEq, Repr

/-- The documented step that a decorator implements. -/
def AnteDecorator.kind : AnteDecorator → StepKind
  | .NewSetUpContextDecorator => .contextSetup
  | .NewLimitSimulationGasDecorator _ => .simulationGasLimiting
  | .NewCountTXDecorator _ => .contractTxCounting
  | .NewGasRegisterDecorator _ => .gasRegisterAdjustment
  | .NewCircuitBreakerDecorator _ => .circuitBreakerGate
  | .NewExtensionOptionsDecorator _ => .extensionOptionsCheck
  | .NewValidateBasicDecorator => .basicValidation
  | .NewTxTimeoutHeightDecorator => .timeoutHeightCheck
  | .NewValidateMemoDecorator _ => .memoValidation
  | .NewConsumeGasForTxSizeDecorator _ => .txSizeGasConsumption
  | .NewDeductFeeDecorator _ _ _ _ => .feeDeduction
  | .NewSetPubKeyDecorator _ => .publicKeyResolution
  | .NewValidateSigCountDecorator _ => .signatureCountValidation
  | .NewSigGasConsumeDecorator _ _ => .signatureVerificationGasConsumption
  | .NewSigVerificationDecorator _ _ => .signatureVerification
  | .NewIncrementSequenceDecorator _ => .sequenceIncrement
  | .NewRedundantRelayDecorator _ => .redundantRelayCheck
  | .NewPepDecorator _ _ _ => .keyShareLane

/-- The documented 17-step ordering of the full variant, written from section
4.3 of the specification. -/
def fullOrdering : List StepKind := [
  .contextSetup, .simulationGasLimiting, .contractTxCounting, .gasRegisterAdjustment,
  .circuitBreakerGate, .extensionOptionsCheck, .basicValidation, .timeoutHeightCheck,
  .memoValidation, .txSizeGasConsumption, .feeDeduction, .publicKeyResolution,
  .signatureCountValidation, .signatureVerificationGasConsumption, .signatureVerification,
  .sequenceIncrement, .redundantRelayCheck]

/-- The documented ordering of the lazy-lane variant, written from section 4.4
of the specification: context setup, one simulation-gas-limiting step, steps 6-16 of the full
ordering, then the key-share-lane step. -/
def lazyOrdering : List StepKind :=
  [.contextSetup, .simulationGasLimiting] ++ (fullOrdering.drop 5).take 11 ++ [.keyShareLane]

/-- The two pipeline variants. -/
inductive Variant
  | full
  | lazy
  deriving DecidableEq, Repr

/-- The fixed ordering documented for a variant. -/
def fixedOrdering : Variant → List StepKind
  | .full => fullOrdering
  | .lazy => lazyOrdering

/-- The handler `h` is the chained handler some builder call of the variant
returned. -/
def BuiltBy (v : Variant) (h : AnteHandler) : Prop :=
  match v with
  | .full => ∃ options, NewAnteHandler options = .ok (some h, none)
  | .lazy => ∃ options, NewLazyAnteHandler options = .ok h

/-- The presence checks of `NewAnteHandler` (ante.go, lines 87-104) all pass. -/
def passesFullChecks (options : HandlerOptions) : Prop :=
  options.AccountKeeper ≠ none ∧ options.BankKeeper ≠ none ∧
  options.SignModeHandler ≠ none ∧ options.WasmConfig ≠ none ∧
  options.TXCounterStoreService ≠ none ∧ options.CircuitKeeper ≠ none

instance (options : HandlerOptions) : Decidable (passesFullChecks options) := by
  unfold passesFullChecks
  infer_instance

/-- The presence checks of `NewLazyAnteHandler` (ante.go, lines 32-46) all pass. -/
def passesLazyChecks (options : LazyHandlerOptions) : Prop :=
  options.BaseOptions.AccountKeeper ≠ none ∧ options.BaseOptions.BankKeeper ≠ none ∧
  options.BaseOptions.SignModeHandler ≠ none ∧ options.BaseOptions.FeegrantKeeper ≠ none

instance (options : LazyHandlerOptions) : Decidable (passesLazyChecks options) := by
  unfold passesLazyChecks
  infer_instance

/-- The step list a full-variant builder outcome chains, if it chains one. -/
def chainedSteps : Except Panic (Option AnteHandler × Option String) → Option (List AnteDecorator)
  | .ok (some h, _) => some h.chain
  | _ => none

/-- The step list a lazy-variant builder outcome chains, if it chains one. -/
def lazyChainedSteps : Except Panic AnteHandler → Option (List AnteDecorator)
  | .ok h => some h.chain
  | .error _ => none

/-- The invocations the executor makes on `steps`, numbered from `i`, when the
context handed to step `j` is `ctxs j`. -/
def expectedTrace {Ctx : Type} (ctxs : Nat → Ctx) (simulate : Bool) :
    List AnteDecorator → Nat → List (Invocation Ctx)
  | [], _ => []
  | d :: ds, i => ⟨i, d, ctxs i, simulate⟩ :: expectedTrace ctxs simulate ds (i + 1)

/-! ## Sample inputs -/

/-- A base option set with every collaborator present. -/
def sampleBase : ante.HandlerOptions :=
  { AccountKeeper := some ⟨1⟩, BankKeeper := some ⟨2⟩, ExtensionOptionChecker := some ⟨3⟩,
    FeegrantKeeper := some ⟨4⟩, SignModeHandler := some ⟨5⟩, SigGasConsumer := some ⟨6⟩,
    TxFeeChecker := some ⟨7⟩ }

/-- A full-variant option set with every collaborator present. -/
def sampleFull : HandlerOptions :=
  { toHandlerOptions := sampleBase, IBCKeeper := some ⟨8⟩,
    WasmConfig := some ⟨some 1000000⟩, WasmKeeper := some ⟨some ⟨9⟩⟩,
    TXCounterStoreService := some ⟨10⟩, CircuitKeeper := some ⟨11⟩ }

/-- A lazy-variant option set with every collaborator present. -/
def sampleLazy : LazyHandlerOptions :=
  { BaseOptions := sampleBase, wasmConfig := ⟨some 1000000⟩, KeyShareLane := some ⟨12⟩,
    TxDecoder := some ⟨13⟩, TxEncoder := some ⟨14⟩, PepKeeper := ⟨15⟩ }

/-- The handler `NewAnteHandler` returns for `sampleFull`. -/
def sampleFullHandler : AnteHandler :=
  ⟨[.NewSetUpContextDecorator,
    .NewLimitSimulationGasDecorator (some 1000000),
    .NewCountTXDecorator (some ⟨10⟩),
    .NewGasRegisterDecorator (some ⟨9⟩),
    .NewCircuitBreakerDecorator (some ⟨11⟩),
    .NewExtensionOptionsDecorator (some ⟨3⟩),
    .NewValidateBasicDecorator,
    .NewTxTimeoutHeightDecorator,
    .NewValidateMemoDecorator (some ⟨1⟩),
    .NewConsumeGasForTxSizeDecorator (some ⟨1⟩),
    .NewDeductFeeDecorator (some ⟨1⟩) (some ⟨2⟩) (some ⟨4⟩) (some ⟨7⟩),
    .NewSetPubKeyDecorator (some ⟨1⟩),
    .NewValidateSigCountDecorator (some ⟨1⟩),
    .NewSigGasConsumeDecorator (some ⟨1⟩) (some ⟨6⟩),
    .NewSigVerificationDecorator (some ⟨1⟩) (some ⟨5⟩),
    .NewIncrementSequenceDecorator (some ⟨1⟩),
    .NewRedundantRelayDecorator (some ⟨8⟩)]⟩

/-- The handler `NewLazyAnteHandler` returns for `sampleLazy`. -/
def sampleLazyHandler : AnteHandler :=
  ⟨[.NewSetUpContextDecorator,
    .NewLimitSimulationGasDecorator (some 1000000),
    .NewExtensionOptionsDecorator (some ⟨3⟩),
    .NewValidateBasicDecorator,
    .NewTxTimeoutHeightDecorator,
    .NewValidateMemoDecorator (some ⟨1⟩),
    .NewConsumeGasForTxSizeDecorator (some ⟨1⟩),
    .NewDeductFeeDecorator (some ⟨1⟩) (some ⟨2⟩) (some ⟨4⟩) (some ⟨7⟩),
    .NewSetPubKeyDecorator (some ⟨1⟩),
    .NewValidateSigCountDecorator (some ⟨1⟩),
    .NewSigGasConsumeDecorator (some ⟨1⟩) (some ⟨6⟩),
    .NewSigVerificationDecorator (some ⟨1⟩) (some ⟨5⟩),
    .NewIncrementSequenceDecorator (some ⟨1⟩),
    .NewPepDecorator ⟨15⟩ (some ⟨14⟩) (some ⟨12⟩)]⟩

/-- The option set `sampleFull` without a fee-grant keeper. -/
def fullNoFeegrant : HandlerOptions :=
  { sampleFull with FeegrantKeeper := none }

/-- The option set `sampleLazy` without a fee-grant keeper. -/
def lazyNoFeegrant : LazyHandlerOptions :=
  { sampleLazy with BaseOptions := { sampleBase with FeegrantKeeper := none } }

/-- The option set `sampleLazy` without key-share lane and transaction encoder. -/
def lazyNoLane : LazyHandlerOptions :=
  { sampleLazy with KeyShareLane := none, TxEncoder := none }

/-- The option set `sampleLazy` without an account keeper. -/
def lazyNoAccount : LazyHandlerOptions :=
  { sampleLazy with BaseOptions := { sampleBase with AccountKeeper := none } }

/-- The option set `sampleFull` with a simulation gas limit of zero. -/
def fullZeroLimit : HandlerOptions :=
  { sampleFull with WasmConfig := some ⟨some 0⟩ }

/-- The option set `sampleLazy` with a simulation gas limit of zero. -/
def lazyZeroLimit : LazyHandlerOptions :=
  { sampleLazy with wasmConfig := ⟨some 0⟩ }

/-- The option set `sampleFull` without a circuit-breaker keeper. -/
def fullNoCircuit : HandlerOptions :=
  { sampleFull with CircuitKeeper := none }

/-- A base option set with only the bank keeper missing. -/
def baseNoBank : ante.HandlerOptions :=
  { sampleBase with BankKeeper := none }

/-- A step behaviour in which every step succeeds and advances a counter that
stands for the context. -/
def allPassRun : AnteDecorator → Nat → Unit → Bool → Except String Nat :=
  fun _ c _ _ => .ok (c + 1)

/-- A step behaviour in which fee deduction fails and every other step
succeeds. -/
def feeFailRun : AnteDecorator → Nat → Unit → Bool → Except String Nat :=
  fun d c _ _ => if d.kind = .feeDeduction then .error "insufficient fee" else .ok (c + 1)

/-- A step behaviour in which signature verification fails and every other
step succeeds. -/
def badSignatureRun : AnteDecorator → Nat → Unit → Bool → Except String Nat :=
  fun d c _ _ =>
    if d.kind = .signatureVerification then .error "signature verification failed"
    else .ok (c + 1)

/-! ## Properties of the executor loop -/

section Executor

variable {Ctx Tx Err : Type}

theorem expectedTrace_step (ctxs : Nat → Ctx) (simulate : Bool) (steps : List AnteDecorator)
    (i : Nat) : (expectedTrace ctxs simulate steps i).map (fun inv => inv.step) = steps := by
  induction steps generalizing i with
  | nil => rfl
  | cons d ds ih => simp [expectedTrace, ih]

theorem expectedTrace_index (ctxs : Nat → Ctx) (simulate : Bool) (steps : List AnteDecorator)
    (i : Nat) :
    (expectedTrace ctxs simulate steps i).map (fun inv => inv.index)
      = List.range' i steps.length := by
  induction steps generalizing i with
  | nil => rfl
  | cons d ds ih => simp [expectedTrace, ih, List.range'_succ]

theorem expectedTrace_mem (ctxs : Nat → Ctx) (simulate : Bool) (steps : List AnteDecorator)
    (i : Nat) (inv : Invocation Ctx) (hm : inv ∈ expectedTrace ctxs simulate steps i) :
    i ≤ inv.index ∧ inv.index < i + steps.length ∧ inv.ctx = ctxs inv.index ∧
      inv.simulate = simulate ∧ steps[inv.index - i]? = some inv.step := by
  induction steps generalizing i with
  | nil => simp [expectedTrace] at hm
  | cons d ds ih =>
    simp only [expectedTrace, List.mem_cons] at hm
    rcases hm with rfl | hm
    · simp
    · obtain ⟨h1, h2, h3, h4, h5⟩ := ih (i + 1) hm
      refine ⟨by omega, by simp only [List.length_cons]; omega, h3, h4, ?_⟩
      have : inv.index - i = (inv.index - (i + 1)) + 1 := by omega
      rw [this, List.getElem?_cons_succ]
      exact h5

/-- When every step succeeds along the contexts `ctxs`, the loop invokes every
step once, in order, and returns the last context. -/
theorem runChain_all_ok (run : AnteDecorator → Ctx → Tx → Bool → Except Err Ctx)
    (tx : Tx) (simulate : Bool) (ctxs : Nat → Ctx) (steps : List AnteDecorator) (i : Nat)
    (hs : ∀ j (hj : j < steps.length),
      run steps[j] (ctxs (i + j)) tx simulate = .ok (ctxs (i + j + 1))) :
    runChain run tx simulate steps i (ctxs i)
      = (expectedTrace ctxs simulate steps i, .ok (ctxs (i + steps.length))) := by
  induction steps generalizing i with
  | nil => simp [runChain, expectedTrace]
  | cons d ds ih =>
    have h0 := hs 0 (by simp)
    simp only [List.getElem_cons_zero, Nat.add_zero] at h0
    have ht : ∀ j (hj : j < ds.length),
        run ds[j] (ctxs (i + 1 + j)) tx simulate = .ok (ctxs (i + 1 + j + 1)) := by
      intro j hj
      have := hs (j + 1) (by simp only [List.length_cons]; omega)
      simp only [List.getElem_cons_succ] at this
      have e1 : i + (j + 1) = i + 1 + j := by omega
      rw [e1] at this
      exact this
    have := ih (i + 1) ht
    simp only [runChain, h0, this, expectedTrace, List.length_cons]
    have e2 : i + 1 + ds.length = i + (ds.length + 1) := by omega
    rw [e2]

/-- When the steps before position `k` succeed along `ctxs` and step `k` fails
with `e`, the loop invokes exactly the steps up to `k` and returns `e`. -/
theorem runChain_fail_at (run : AnteDecorator → Ctx → Tx → Bool → Except Err Ctx)
    (tx : Tx) (simulate : Bool) (ctxs : Nat → Ctx) (steps : List AnteDecorator) (i k : Nat)
    (e : Err) (hk : k < steps.length)
    (hs : ∀ j (hj : j < steps.length), j < k →
      run steps[j] (ctxs (i + j)) tx simulate = .ok (ctxs (i + j + 1)))
    (hf : run steps[k] (ctxs (i + k)) tx simulate = .error e) :
    runChain run tx simulate steps i (ctxs i)
      = (expectedTrace ctxs simulate (steps.take (k + 1)) i, .error e) := by
  induction steps generalizing i k with
  | nil => simp at hk
  | cons d ds ih =>
    cases k with
    | zero =>
      simp only [List.getElem_cons_zero, Nat.add_zero] at hf
      simp [runChain, hf, expectedTrace]
    | succ k =>
      have h0 := hs 0 (by simp) (by omega)
      simp only [List.getElem_cons_zero, Nat.add_zero] at h0
      have hk2 : k < ds.length := by simp only [List.length_cons] at hk; omega
      have ht : ∀ j (hj : j < ds.length), j < k →
          run ds[j] (ctxs (i + 1 + j)) tx simulate = .ok (ctxs (i + 1 + j + 1)) := by
        intro j hj hjk
        have := hs (j + 1) (by simp only [List.length_cons]; omega) (by omega)
        simp only [List.getElem_cons_succ] at this
        have e1 : i + (j + 1) = i + 1 + j := by omega
        rw [e1] at this
        exact this
      have hf2 : run ds[k] (ctxs (i + 1 + k)) tx simulate = .error e := by
        simp only [List.getElem_cons_succ] at hf
        have e1 : i + (k + 1) = i + 1 + k := by omega
        rw [e1] at hf
        exact hf
      have := ih (i + 1) k hk2 ht hf2
      simp only [runChain, h0, this, expectedTrace, List.take_succ_cons]

/-- The steps the loop invokes are an initial segment of the step list. -/
theorem runChain_steps_take (run : AnteDecorator → Ctx → Tx → Bool → Except Err Ctx)
    (tx : Tx) (simulate : Bool) (steps : List AnteDecorator) (i : Nat) (ctx : Ctx) :
    (runChain run tx simulate steps i ctx).1.map (fun inv => inv.step)
      = steps.take (runChain run tx simulate steps i ctx).1.length := by
  induction steps generalizing i ctx with
  | nil => simp [runChain]
  | cons d ds ih =>
    simp only [runChain]
    cases hr : run d ctx tx simulate with
    | error e => simp
    | ok c => simp [ih (i + 1) c]

/-- An invocation that fails is the last one the loop makes, and its error is
the result of the loop. -/
theorem runChain_failure_is_last (run : AnteDecorator → Ctx → Tx → Bool → Except Err Ctx)
    (tx : Tx) (simulate : Bool) (steps : List AnteDecorator) (i : Nat) (ctx : Ctx)
    (inv : Invocation Ctx) (e : Err)
    (hm : inv ∈ (runChain run tx simulate steps i ctx).1)
    (hf : run inv.step inv.ctx tx simulate = .error e) :
    (runChain run tx simulate steps i ctx).1.getLast? = some inv ∧
      (runChain run tx simulate steps i ctx).2 = .error e := by
  induction steps generalizing i ctx with
  | nil => simp [runChain] at hm
  | cons d ds ih =>
    simp only [runChain] at hm ⊢
    cases hr : run d ctx tx simulate with
    | error e2 =>
      simp only [hr, List.mem_singleton] at hm
      subst hm
      simp only at hf
      rw [hr] at hf
      cases hf
      simp
    | ok c =>
      simp only [hr, List.mem_cons] at hm
      rcases hm with rfl | hm
      · simp only at hf
        rw [hr] at hf
        cases hf
      · obtain ⟨h1, h2⟩ := ih (i + 1) c hm
        refine ⟨?_, h2⟩
        simp only
        rw [List.getLast?_cons, h1]
        rfl

end Executor

/-! ## Properties of the builders -/

/-- The limit constructor returns its decorator unless the limit is a pointer
to zero. -/
theorem NewLimitSimulationGasDecorator_ok (gasLimit : Option Nat) (hz : gasLimit ≠ some 0) :
    wasmkeeper.NewLimitSimulationGasDecorator gasLimit
      = .ok (.NewLimitSimulationGasDecorator gasLimit) := by
  unfold wasmkeeper.NewLimitSimulationGasDecorator
  rw [if_neg hz]

/-- The limit constructor aborts on a pointer to zero. -/
theorem NewLimitSimulationGasDecorator_zero (gasLimit : Option Nat) (hz : gasLimit = some 0) :
    wasmkeeper.NewLimitSimulationGasDecorator gasLimit
      = .error (.message "gas limit must not be zero") := by
  unfold wasmkeeper.NewLimitSimulationGasDecorator
  rw [if_pos hz]

/-- When a presence check of `NewAnteHandler` fails, the builder returns an
error and no handler. -/
theorem NewAnteHandler_checks_fail (options : HandlerOptions)
    (hn : ¬ passesFullChecks options) :
    ∃ msg, NewAnteHandler options = .ok (none, some msg) := by
  unfold NewAnteHandler
  by_cases h1 : options.AccountKeeper = none
  · exact ⟨_, if_pos h1⟩
  rw [if_neg h1]
  by_cases h2 : options.BankKeeper = none
  · exact ⟨_, if_pos h2⟩
  rw [if_neg h2]
  by_cases h3 : options.SignModeHandler = none
  · exact ⟨_, if_pos h3⟩
  rw [if_neg h3]
  cases hc : options.WasmConfig with
  | none => exact ⟨_, rfl⟩
  | some wc =>
    simp only []
    by_cases h5 : options.TXCounterStoreService = none
    · exact ⟨_, if_pos h5⟩
    rw [if_neg h5]
    by_cases h6 : options.CircuitKeeper = none
    · exact ⟨_, if_pos h6⟩
    exact absurd ⟨h1, h2, h3, by simp [hc], h5, h6⟩ hn

/-- What `NewAnteHandler` does once its presence checks pass: the outcome of
the calls at lines 108 and 110, in that order, then the chained list. -/
theorem NewAnteHandler_checks_pass (options : HandlerOptions) (wasmConfig : WasmConfig)
    (hp : passesFullChecks options) (hc : options.WasmConfig = some wasmConfig) :
    NewAnteHandler options =
      match wasmkeeper.NewLimitSimulationGasDecorator wasmConfig.SimulationGasLimit with
      | .error p => .error p
      | .ok limitSimulationGas =>
        match GetGasRegister options.WasmKeeper with
        | .error p => .error p
        | .ok gasRegister =>
          .ok (some (ChainAnteDecorators [
            .NewSetUpContextDecorator,
            limitSimulationGas,
            .NewCountTXDecorator options.TXCounterStoreService,
            .NewGasRegisterDecorator gasRegister,
            .NewCircuitBreakerDecorator options.CircuitKeeper,
            .NewExtensionOptionsDecorator options.ExtensionOptionChecker,
            .NewValidateBasicDecorator,
            .NewTxTimeoutHeightDecorator,
            .NewValidateMemoDecorator options.AccountKeeper,
            .NewConsumeGasForTxSizeDecorator options.AccountKeeper,
            .NewDeductFeeDecorator options.AccountKeeper options.BankKeeper
              options.FeegrantKeeper options.TxFeeChecker,
            .NewSetPubKeyDecorator options.AccountKeeper,
            .NewValidateSigCountDecorator options.AccountKeeper,
            .NewSigGasConsumeDecorator options.AccountKeeper options.SigGasConsumer,
            .NewSigVerificationDecorator options.AccountKeeper options.SignModeHandler,
            .NewIncrementSequenceDecorator options.AccountKeeper,
            .NewRedundantRelayDecorator options.IBCKeeper]), none) := by
  obtain ⟨h1, h2, h3, -, h5, h6⟩ := hp
  unfold NewAnteHandler
  rw [if_neg h1, if_neg h2, if_neg h3, hc]
  simp only []
  rw [if_neg h5, if_neg h6]

/-- What `NewAnteHandler` returns once its presence checks pass, the limit is
not a pointer to zero and the contract keeper is there. -/
theorem NewAnteHandler_ok (options : HandlerOptions) (wasmConfig : WasmConfig)
    (wasmKeeper : WasmKeeper) (hp : passesFullChecks options)
    (hc : options.WasmConfig = some wasmConfig) (hw : options.WasmKeeper = some wasmKeeper)
    (hz : wasmConfig.SimulationGasLimit ≠ some 0) :
    NewAnteHandler options = .ok (some (ChainAnteDecorators [
      .NewSetUpContextDecorator,
      .NewLimitSimulationGasDecorator wasmConfig.SimulationGasLimit,
      .NewCountTXDecorator options.TXCounterStoreService,
      .NewGasRegisterDecorator wasmKeeper.gasRegister,
      .NewCircuitBreakerDecorator options.CircuitKeeper,
      .NewExtensionOptionsDecorator options.ExtensionOptionChecker,
      .NewValidateBasicDecorator,
      .NewTxTimeoutHeightDecorator,
      .NewValidateMemoDecorator options.AccountKeeper,
      .NewConsumeGasForTxSizeDecorator options.AccountKeeper,
      .NewDeductFeeDecorator options.AccountKeeper options.BankKeeper
        options.FeegrantKeeper options.TxFeeChecker,
      .NewSetPubKeyDecorator options.AccountKeeper,
      .NewValidateSigCountDecorator options.AccountKeeper,
      .NewSigGasConsumeDecorator options.AccountKeeper options.SigGasConsumer,
      .NewSigVerificationDecorator options.AccountKeeper options.SignModeHandler,
      .NewIncrementSequenceDecorator options.AccountKeeper,
      .NewRedundantRelayDecorator options.IBCKeeper]), none) := by
  rw [NewAnteHandler_checks_pass options wasmConfig hp hc,
    NewLimitSimulationGasDecorator_ok _ hz, hw]
  rfl

/-- With every checked collaborator present and a limit that is a pointer to
zero, `NewAnteHandler` aborts at line 108, whatever the contract keeper is. -/
theorem NewAnteHandler_zero_limit (options : HandlerOptions) (wasmConfig : WasmConfig)
    (hp : passesFullChecks options) (hc : options.WasmConfig = some wasmConfig)
    (hz : wasmConfig.SimulationGasLimit = some 0) :
    NewAnteHandler options = .error (.message "gas limit must not be zero") := by
  rw [NewAnteHandler_checks_pass options wasmConfig hp hc,
    NewLimitSimulationGasDecorator_zero _ hz]

/-- With the contract keeper absent, every checked collaborator present and an
accepted limit, `NewAnteHandler` aborts at
`options.WasmKeeper.GetGasRegister()`. -/
theorem NewAnteHandler_nil_WasmKeeper (options : HandlerOptions) (wasmConfig : WasmConfig)
    (hp : passesFullChecks options) (hc : options.WasmConfig = some wasmConfig)
    (hz : wasmConfig.SimulationGasLimit ≠ some 0) (hw : options.WasmKeeper = none) :
    NewAnteHandler options = .error .nilDereference := by
  rw [NewAnteHandler_checks_pass options wasmConfig hp hc,
    NewLimitSimulationGasDecorator_ok _ hz, hw]
  rfl

/-- A handler returned by `NewAnteHandler` comes with no error, and its steps
are the full ordering. -/
theorem NewAnteHandler_kinds (options : HandlerOptions) (h : AnteHandler) (e : Option String)
    (hr : NewAnteHandler options = .ok (some h, e)) :
    h.chain.map AnteDecorator.kind = fullOrdering ∧ e = none := by
  by_cases hp : passesFullChecks options
  · cases hc : options.WasmConfig with
    | none => exact absurd hc hp.2.2.2.1
    | some wc =>
      by_cases hz : wc.SimulationGasLimit = some 0
      · rw [NewAnteHandler_zero_limit options wc hp hc hz] at hr
        cases hr
      · cases hw : options.WasmKeeper with
        | none =>
          rw [NewAnteHandler_nil_WasmKeeper options wc hp hc hz hw] at hr
          cases hr
        | some wk =>
          rw [NewAnteHandler_ok options wc wk hp hc hw hz] at hr
          simp only [Except.ok.injEq, Prod.mk.injEq, Option.some.injEq] at hr
          obtain ⟨rfl, rfl⟩ := hr
          exact ⟨rfl, rfl⟩
  · obtain ⟨msg, hmsg⟩ := NewAnteHandler_checks_fail options hp
    rw [hmsg] at hr
    simp at hr

/-- When a presence check of `NewLazyAnteHandler` fails, the builder aborts
with one of its four messages. -/
theorem NewLazyAnteHandler_checks_fail (options : LazyHandlerOptions)
    (hn : ¬ passesLazyChecks options) :
    ∃ msg, NewLazyAnteHandler options = .error (.message msg) ∧
      msg ∈ ["account keeper is required for ante builder",
             "bank keeper is required for ante builder",
             "sign mode handler is required for ante builder",
             "fee grant keeper is required for ante builder"] := by
  unfold NewLazyAnteHandler
  by_cases h1 : options.BaseOptions.AccountKeeper = none
  · exact ⟨_, if_pos h1, by simp⟩
  rw [if_neg h1]
  by_cases h2 : options.BaseOptions.BankKeeper = none
  · exact ⟨_, if_pos h2, by simp⟩
  rw [if_neg h2]
  by_cases h3 : options.BaseOptions.SignModeHandler = none
  · exact ⟨_, if_pos h3, by simp⟩
  rw [if_neg h3]
  by_cases h4 : options.BaseOptions.FeegrantKeeper = none
  · exact ⟨_, if_pos h4, by simp⟩
  exact absurd ⟨h1, h2, h3, h4⟩ hn

/-- What `NewLazyAnteHandler` does once its presence checks pass: the outcome
of the call at line 50, then the chained list. -/
theorem NewLazyAnteHandler_checks_pass (options : LazyHandlerOptions)
    (hp : passesLazyChecks options) :
    NewLazyAnteHandler options =
      match wasmkeeper.NewLimitSimulationGasDecorator
          options.wasmConfig.SimulationGasLimit with
      | .error p => .error p
      | .ok limitSimulationGas =>
        .ok (ChainAnteDecorators [
          .NewSetUpContextDecorator,
          limitSimulationGas,
          .NewExtensionOptionsDecorator options.BaseOptions.ExtensionOptionChecker,
          .NewValidateBasicDecorator,
          .NewTxTimeoutHeightDecorator,
          .NewValidateMemoDecorator options.BaseOptions.AccountKeeper,
          .NewConsumeGasForTxSizeDecorator options.BaseOptions.AccountKeeper,
          .NewDeductFeeDecorator options.BaseOptions.AccountKeeper
            options.BaseOptions.BankKeeper options.BaseOptions.FeegrantKeeper
            options.BaseOptions.TxFeeChecker,
          .NewSetPubKeyDecorator options.BaseOptions.AccountKeeper,
          .NewValidateSigCountDecorator options.BaseOptions.AccountKeeper,
          .NewSigGasConsumeDecorator options.BaseOptions.AccountKeeper
            options.BaseOptions.SigGasConsumer,
          .NewSigVerificationDecorator options.BaseOptions.AccountKeeper
            options.BaseOptions.SignModeHandler,
          .NewIncrementSequenceDecorator options.BaseOptions.AccountKeeper,
          .NewPepDecorator options.PepKeeper options.TxEncoder options.KeyShareLane]) := by
  obtain ⟨h1, h2, h3, h4⟩ := hp
  unfold NewLazyAnteHandler
  rw [if_neg h1, if_neg h2, if_neg h3, if_neg h4]

/-- What `NewLazyAnteHandler` returns once its presence checks pass and the
limit is not a pointer to zero. -/
theorem NewLazyAnteHandler_ok (options : LazyHandlerOptions) (hp : passesLazyChecks options)
    (hz : options.wasmConfig.SimulationGasLimit ≠ some 0) :
    NewLazyAnteHandler options = .ok (ChainAnteDecorators [
      .NewSetUpContextDecorator,
      .NewLimitSimulationGasDecorator options.wasmConfig.SimulationGasLimit,
      .NewExtensionOptionsDecorator options.BaseOptions.ExtensionOptionChecker,
      .NewValidateBasicDecorator,
      .NewTxTimeoutHeightDecorator,
      .NewValidateMemoDecorator options.BaseOptions.AccountKeeper,
      .NewConsumeGasForTxSizeDecorator options.BaseOptions.AccountKeeper,
      .NewDeductFeeDecorator options.BaseOptions.AccountKeeper options.BaseOptions.BankKeeper
        options.BaseOptions.FeegrantKeeper options.BaseOptions.TxFeeChecker,
      .NewSetPubKeyDecorator options.BaseOptions.AccountKeeper,
      .NewValidateSigCountDecorator options.BaseOptions.AccountKeeper,
      .NewSigGasConsumeDecorator options.BaseOptions.AccountKeeper
        options.BaseOptions.SigGasConsumer,
      .NewSigVerificationDecorator options.BaseOptions.AccountKeeper
        options.BaseOptions.SignModeHandler,
      .NewIncrementSequenceDecorator options.BaseOptions.AccountKeeper,
      .NewPepDecorator options.PepKeeper options.TxEncoder options.KeyShareLane]) := by
  rw [NewLazyAnteHandler_checks_pass options hp, NewLimitSimulationGasDecorator_ok _ hz]

/-- With its four checked collaborators present and a limit that is a pointer
to zero, `NewLazyAnteHandler` aborts at line 50. -/
theorem NewLazyAnteHandler_zero_limit (options : LazyHandlerOptions)
    (hp : passesLazyChecks options) (hz : options.wasmConfig.SimulationGasLimit = some 0) :
    NewLazyAnteHandler options = .error (.message "gas limit must not be zero") := by
  rw [NewLazyAnteHandler_checks_pass options hp, NewLimitSimulationGasDecorator_zero _ hz]

/-- A handler returned by `NewLazyAnteHandler` was built with the checks passed
and an accepted limit, and is the handler over the fourteen-step list. -/
theorem NewLazyAnteHandler_ok_inv (options : LazyHandlerOptions) (h : AnteHandler)
    (hr : NewLazyAnteHandler options = .ok h) :
    passesLazyChecks options ∧ options.wasmConfig.SimulationGasLimit ≠ some 0 := by
  by_cases hp : passesLazyChecks options
  · refine ⟨hp, fun hz => ?_⟩
    rw [NewLazyAnteHandler_zero_limit options hp hz] at hr
    cases hr
  · obtain ⟨msg, hmsg, -⟩ := NewLazyAnteHandler_checks_fail options hp
    rw [hmsg] at hr
    cases hr

/-- The steps of a handler returned by `NewLazyAnteHandler` are the lazy-lane
ordering. -/
theorem NewLazyAnteHandler_kinds (options : LazyHandlerOptions) (h : AnteHandler)
    (hr : NewLazyAnteHandler options = .ok h) :
    h.chain.map AnteDecorator.kind = lazyOrdering := by
  obtain ⟨hp, hz⟩ := NewLazyAnteHandler_ok_inv options h hr
  rw [NewLazyAnteHandler_ok options hp hz] at hr
  simp only [Except.ok.injEq] at hr
  subst hr
  rfl

/-- The steps of a handler built for a variant are that variant's ordering. -/
theorem BuiltBy_kinds (v : Variant) (h : AnteHandler) (hb : BuiltBy v h) :
    h.chain.map AnteDecorator.kind = fixedOrdering v := by
  cases v with
  | full =>
    obtain ⟨o, ho⟩ := hb
    exact (NewAnteHandler_kinds o h none ho).1
  | lazy =>
    obtain ⟨o, ho⟩ := hb
    exact NewLazyAnteHandler_kinds o h ho

/-- In either documented ordering, an initial segment that ends with signature
verification does not contain sequence increment. -/
theorem ordering_stops_before_sequence_increment (v : Variant) (m : Nat)
    (hl : ((fixedOrdering v).take m).getLast? = some .signatureVerification) :
    StepKind.sequenceIncrement ∉ (fixedOrdering v).take m := by
  rcases Nat.lt_or_ge m 18 with hm | hm
  · interval_cases m <;> cases v <;> revert hl <;> decide
  · have hlen : (fixedOrdering v).length ≤ m := by
      cases v
      · show 17 ≤ m
        omega
      · show 14 ≤ m
        omega
    rw [List.take_of_length_le hlen] at hl
    exfalso
    revert hl
    cases v <;> decide

/-! ## The chained handler of either variant -/

/-- Claim C1. For the chained handler of either variant, every transaction,
mode flag and position `k`: if the steps before `k` succeed (each on the
context its predecessor returned) and step `k` fails with `e`, the handler
returns exactly `e`, the invocations made are those of the steps up to `k` in
order, and no step after `k` is invoked. -/
theorem chained_handler_returns_first_failure {Ctx Tx Err : Type}
    (v : Variant) (h : AnteHandler) (hb : BuiltBy v h)
    (run : AnteDecorator → Ctx → Tx → Bool → Except Err Ctx) (tx : Tx) (simulate : Bool)
    (ctxs : Nat → Ctx) (k : Nat) (e : Err) (hk : k < h.chain.length)
    (hs : ∀ j (hj : j < h.chain.length), j < k →
      run h.chain[j] (ctxs j) tx simulate = .ok (ctxs (j + 1)))
    (hf : run h.chain[k] (ctxs k) tx simulate = .error e) :
    (h.process run (ctxs 0) tx simulate).2 = .error e ∧
    (h.process run (ctxs 0) tx simulate).1
      = expectedTrace ctxs simulate (h.chain.take (k + 1)) 0 ∧
    (h.process run (ctxs 0) tx simulate).1.map (fun inv => inv.step.kind)
      = (fixedOrdering v).take (k + 1) ∧
    (h.process run (ctxs 0) tx simulate).1.map (fun inv => inv.index) = List.range (k + 1) ∧
    ∀ inv ∈ (h.process run (ctxs 0) tx simulate).1, inv.index ≤ k := by
  have hs2 : ∀ j (hj : j < h.chain.length), j < k →
      run h.chain[j] (ctxs (0 + j)) tx simulate = .ok (ctxs (0 + j + 1)) := by
    intro j hj hjk
    simpa using hs j hj hjk
  have hf2 : run h.chain[k] (ctxs (0 + k)) tx simulate = .error e := by simpa using hf
  have hrun := runChain_fail_at run tx simulate ctxs h.chain 0 k e hk hs2 hf2
  have hlen : (h.chain.take (k + 1)).length = k + 1 := by
    rw [List.length_take]
    omega
  unfold AnteHandler.process
  rw [hrun]
  refine ⟨rfl, rfl, ?_, ?_, ?_⟩
  · have h1 := expectedTrace_step ctxs simulate (h.chain.take (k + 1)) 0
    have h2 : (expectedTrace ctxs simulate (h.chain.take (k + 1)) 0).map
        (fun inv => inv.step.kind)
        = ((expectedTrace ctxs simulate (h.chain.take (k + 1)) 0).map
            (fun inv => inv.step)).map AnteDecorator.kind := by
      rw [List.map_map]
      rfl
    show (expectedTrace ctxs simulate (h.chain.take (k + 1)) 0).map
        (fun inv => inv.step.kind) = _
    rw [h2, h1, List.map_take, BuiltBy_kinds v h hb]
  · have h1 := expectedTrace_index ctxs simulate (h.chain.take (k + 1)) 0
    show (expectedTrace ctxs simulate (h.chain.take (k + 1)) 0).map
        (fun inv => inv.index) = _
    rw [h1, hlen, List.range_eq_range']
  · intro inv hm
    have := expectedTrace_mem ctxs simulate (h.chain.take (k + 1)) 0 inv hm
    omega

/-- Claim C1, at a concrete run: on the handler built for `sampleFull`, with
fee deduction (position 10, step 11) failing, the handler returns that error
after eleven invocations. -/
theorem chained_handler_returns_first_failure_witness :
    BuiltBy .full sampleFullHandler ∧
    (sampleFullHandler.process feeFailRun 0 () false).2 = .error "insufficient fee" ∧
    (sampleFullHandler.process feeFailRun 0 () false).1
      = expectedTrace id false (sampleFullHandler.chain.take (10 + 1)) 0 ∧
    (sampleFullHandler.process feeFailRun 0 () false).1.map (fun inv => inv.step.kind)
      = (fixedOrdering .full).take (10 + 1) ∧
    (sampleFullHandler.process feeFailRun 0 () false).1.map (fun inv => inv.index)
      = List.range (10 + 1) ∧
    ∀ inv ∈ (sampleFullHandler.process feeFailRun 0 () false).1, inv.index ≤ 10 :=
  ⟨⟨sampleFull, rfl⟩,
   chained_handler_returns_first_failure .full sampleFullHandler ⟨sampleFull, rfl⟩
     feeFailRun () false id 10 "insufficient fee" (by decide)
     (by
       intro j hj hjk
       interval_cases j <;> rfl)
     rfl⟩

/-- Claim C4. For the chained handler of either variant, every transaction and
mode flag: if every step succeeds on the context its predecessor returned,
then the handler invokes the steps of the variant's fixed ordering, each once
and in order, hands each the context returned by its predecessor and the same
mode flag, and returns the context returned by the last step. -/
theorem chained_handler_runs_fixed_ordering {Ctx Tx Err : Type}
    (v : Variant) (h : AnteHandler) (hb : BuiltBy v h)
    (run : AnteDecorator → Ctx → Tx → Bool → Except Err Ctx) (tx : Tx) (simulate : Bool)
    (ctxs : Nat → Ctx)
    (hs : ∀ j (hj : j < h.chain.length),
      run h.chain[j] (ctxs j) tx simulate = .ok (ctxs (j + 1))) :
    (h.process run (ctxs 0) tx simulate).2 = .ok (ctxs h.chain.length) ∧
    (h.process run (ctxs 0) tx simulate).1 = expectedTrace ctxs simulate h.chain 0 ∧
    (h.process run (ctxs 0) tx simulate).1.map (fun inv => inv.step.kind) = fixedOrdering v ∧
    (fixedOrdering v).Nodup ∧
    (h.process run (ctxs 0) tx simulate).1.map (fun inv => inv.index)
      = List.range (fixedOrdering v).length ∧
    ∀ inv ∈ (h.process run (ctxs 0) tx simulate).1,
      inv.ctx = ctxs inv.index ∧ inv.simulate = simulate := by
  have hs2 : ∀ j (hj : j < h.chain.length),
      run h.chain[j] (ctxs (0 + j)) tx simulate = .ok (ctxs (0 + j + 1)) := by
    intro j hj
    simpa using hs j hj
  have hrun := runChain_all_ok run tx simulate ctxs h.chain 0 hs2
  have hkinds := BuiltBy_kinds v h hb
  have hlen : h.chain.length = (fixedOrdering v).length := by
    rw [← hkinds, List.length_map]
  unfold AnteHandler.process
  rw [hrun]
  refine ⟨by simp, rfl, ?_, ?_, ?_, ?_⟩
  · have h1 := expectedTrace_step ctxs simulate h.chain 0
    have h2 : (expectedTrace ctxs simulate h.chain 0).map (fun inv => inv.step.kind)
        = ((expectedTrace ctxs simulate h.chain 0).map
            (fun inv => inv.step)).map AnteDecorator.kind := by
      rw [List.map_map]
      rfl
    show (expectedTrace ctxs simulate h.chain 0).map (fun inv => inv.step.kind) = _
    rw [h2, h1, hkinds]
  · cases v <;> decide
  · have h1 := expectedTrace_index ctxs simulate h.chain 0
    show (expectedTrace ctxs simulate h.chain 0).map (fun inv => inv.index) = _
    rw [h1, hlen, List.range_eq_range']
  · intro inv hm
    have := expectedTrace_mem ctxs simulate h.chain 0 inv hm
    exact ⟨this.2.2.1, this.2.2.2.1⟩

/-- Claim C4, at a concrete run: on the handler built for `sampleLazy`, in
simulate mode and with every step succeeding, the fourteen steps of the
lazy-lane ordering are invoked once each and the last context is returned. -/
theorem chained_handler_runs_fixed_ordering_witness :
    BuiltBy .lazy sampleLazyHandler ∧
    (sampleLazyHandler.process allPassRun 0 () true).2 = .ok 14 ∧
    (sampleLazyHandler.process allPassRun 0 () true).1
      = expectedTrace id true sampleLazyHandler.chain 0 ∧
    (sampleLazyHandler.process allPassRun 0 () true).1.map (fun inv => inv.step.kind)
      = fixedOrdering .lazy ∧
    (fixedOrdering .lazy).Nodup ∧
    (sampleLazyHandler.process allPassRun 0 () true).1.map (fun inv => inv.index)
      = List.range (fixedOrdering .lazy).length ∧
    ∀ inv ∈ (sampleLazyHandler.process allPassRun 0 () true).1,
      inv.ctx = id inv.index ∧ inv.simulate = true :=
  ⟨⟨sampleLazy, rfl⟩,
   chained_handler_runs_fixed_ordering .lazy sampleLazyHandler ⟨sampleLazy, rfl⟩
     allPassRun () true id (by intro j hj; rfl)⟩

/-- Claim C5. In both variants, for every transaction and mode flag: if the
signature-verification step is invoked and fails, then no invocation of that
run is the sequence-increment step, and the run ends with that failure. -/
theorem sequence_increment_not_invoked_after_failed_verification {Ctx Tx Err : Type}
    (v : Variant) (h : AnteHandler) (hb : BuiltBy v h)
    (run : AnteDecorator → Ctx → Tx → Bool → Except Err Ctx) (ctx : Ctx) (tx : Tx)
    (simulate : Bool) (inv : Invocation Ctx) (e : Err)
    (hm : inv ∈ (h.process run ctx tx simulate).1)
    (hk : inv.step.kind = .signatureVerification)
    (hf : run inv.step inv.ctx tx simulate = .error e) :
    (∀ other ∈ (h.process run ctx tx simulate).1, other.step.kind ≠ .sequenceIncrement) ∧
    (h.process run ctx tx simulate).2 = .error e ∧
    (h.chain.map AnteDecorator.kind).indexOf .signatureVerification
      < (h.chain.map AnteDecorator.kind).indexOf .sequenceIncrement := by
  unfold AnteHandler.process at hm ⊢
  obtain ⟨hlast, hres⟩ := runChain_failure_is_last run tx simulate h.chain 0 ctx inv e hm hf
  have htake := runChain_steps_take run tx simulate h.chain 0 ctx
  have hkinds := BuiltBy_kinds v h hb
  have hmap : (runChain run tx simulate h.chain 0 ctx).1.map (fun i => i.step.kind)
      = (fixedOrdering v).take (runChain run tx simulate h.chain 0 ctx).1.length := by
    have h2 : (runChain run tx simulate h.chain 0 ctx).1.map (fun i => i.step.kind)
        = ((runChain run tx simulate h.chain 0 ctx).1.map
            (fun i => i.step)).map AnteDecorator.kind := by
      rw [List.map_map]
      rfl
    rw [h2, htake, List.map_take, hkinds]
  have hl : ((fixedOrdering v).take (runChain run tx simulate h.chain 0 ctx).1.length).getLast?
      = some .signatureVerification := by
    rw [← hmap, List.getLast?_map, hlast]
    simp [hk]
  have hno := ordering_stops_before_sequence_increment v _ hl
  refine ⟨?_, hres, ?_⟩
  · intro other ho hc
    apply hno
    rw [← hmap, List.mem_map]
    exact ⟨other, ho, hc⟩
  · rw [hkinds]
    cases v <;> decide

/-- Claim C5, at a concrete run: on the handler built for `sampleFull`, with a
failing signature verification, no invocation is the sequence increment. -/
theorem sequence_increment_not_invoked_after_failed_verification_witness :
    BuiltBy .full sampleFullHandler ∧
    (∀ other ∈ (sampleFullHandler.process badSignatureRun 0 () false).1,
      other.step.kind ≠ .sequenceIncrement) ∧
    (sampleFullHandler.process badSignatureRun 0 () false).2
      = .error "signature verification failed" ∧
    (sampleFullHandler.chain.map AnteDecorator.kind).indexOf .signatureVerification
      < (sampleFullHandler.chain.map AnteDecorator.kind).indexOf .sequenceIncrement :=
  ⟨⟨sampleFull, rfl⟩,
   sequence_increment_not_invoked_after_failed_verification .full sampleFullHandler
     ⟨sampleFull, rfl⟩ badSignatureRun 0 () false
     ⟨14, .NewSigVerificationDecorator (some ⟨1⟩) (some ⟨5⟩), 14, false⟩
     "signature verification failed"
     (by simp [AnteHandler.process, sampleFullHandler, runChain, badSignatureRun,
        AnteDecorator.kind])
     rfl rfl⟩

/-! ## The step lists of the two builders -/

/-- Claim C2. For every `HandlerOptions` that passes the presence checks of
`NewAnteHandler`, the step list the builder chains is the documented 17-step
full ordering, in that order; when the simulation gas limit is not a pointer to
zero and the contract keeper is present, the builder does return the handler
chaining that list, with no error. -/
theorem NewAnteHandler_chains_full_ordering (options : HandlerOptions)
    (hp : passesFullChecks options) :
    (∀ steps, chainedSteps (NewAnteHandler options) = some steps →
      steps.map AnteDecorator.kind = [
        .contextSetup, .simulationGasLimiting, .contractTxCounting, .gasRegisterAdjustment,
        .circuitBreakerGate, .extensionOptionsCheck, .basicValidation, .timeoutHeightCheck,
        .memoValidation, .txSizeGasConsumption, .feeDeduction, .publicKeyResolution,
        .signatureCountValidation, .signatureVerificationGasConsumption,
        .signatureVerification, .sequenceIncrement, .redundantRelayCheck] ∧
      steps.length = 17) ∧
    (∀ wasmConfig wasmKeeper, options.WasmConfig = some wasmConfig →
      options.WasmKeeper = some wasmKeeper →
      wasmConfig.SimulationGasLimit ≠ some 0 →
      NewAnteHandler options = .ok (some (ChainAnteDecorators [
        .NewSetUpContextDecorator,
        .NewLimitSimulationGasDecorator wasmConfig.SimulationGasLimit,
        .NewCountTXDecorator options.TXCounterStoreService,
        .NewGasRegisterDecorator wasmKeeper.gasRegister,
        .NewCircuitBreakerDecorator options.CircuitKeeper,
        .NewExtensionOptionsDecorator options.ExtensionOptionChecker,
        .NewValidateBasicDecorator,
        .NewTxTimeoutHeightDecorator,
        .NewValidateMemoDecorator options.AccountKeeper,
        .NewConsumeGasForTxSizeDecorator options.AccountKeeper,
        .NewDeductFeeDecorator options.AccountKeeper options.BankKeeper
          options.FeegrantKeeper options.TxFeeChecker,
        .NewSetPubKeyDecorator options.AccountKeeper,
        .NewValidateSigCountDecorator options.AccountKeeper,
        .NewSigGasConsumeDecorator options.AccountKeeper options.SigGasConsumer,
        .NewSigVerificationDecorator options.AccountKeeper options.SignModeHandler,
        .NewIncrementSequenceDecorator options.AccountKeeper,
        .NewRedundantRelayDecorator options.IBCKeeper]), none)) := by
  refine ⟨?_, fun wc wk hc hw hz => NewAnteHandler_ok options wc wk hp hc hw hz⟩
  intro steps hsteps
  cases hr : NewAnteHandler options with
  | error p => simp [hr, chainedSteps] at hsteps
  | ok r =>
    obtain ⟨ho, e⟩ := r
    cases ho with
    | none => simp [hr, chainedSteps] at hsteps
    | some h =>
      simp only [hr, chainedSteps, Option.some.injEq] at hsteps
      subst hsteps
      have hk := (NewAnteHandler_kinds options h e hr).1
      refine ⟨hk, ?_⟩
      have := congrArg List.length hk
      simpa [fullOrdering] using this

/-- Claim C2, at a concrete input: `sampleFull` passes the presence checks and
the builder chains the 17 steps for it. -/
theorem NewAnteHandler_chains_full_ordering_witness :
    passesFullChecks sampleFull ∧
    chainedSteps (NewAnteHandler sampleFull) = some sampleFullHandler.chain ∧
    sampleFullHandler.chain.map AnteDecorator.kind = fullOrdering ∧
    NewAnteHandler sampleFull = .ok (some sampleFullHandler, none) :=
  have hp : passesFullChecks sampleFull := by decide
  ⟨hp, rfl,
   ((NewAnteHandler_chains_full_ordering sampleFull hp).1 sampleFullHandler.chain rfl).1,
   (NewAnteHandler_chains_full_ordering sampleFull hp).2 ⟨some 1000000⟩ ⟨some ⟨9⟩⟩ rfl rfl
     (by decide)⟩

/-- Claim C3. For every `LazyHandlerOptions` that passes the presence checks of
`NewLazyAnteHandler`, the step list the builder chains has exactly 14 steps:
context setup, one simulation-gas-limiting step, steps 6-16 of the full
ordering in the same order, and the key-share-lane step last, with no contract
tx-counting, gas-register, circuit-breaker or redundant-relay step; when the
simulation gas limit is not a pointer to zero the builder does return the
handler chaining that list. -/
theorem NewLazyAnteHandler_chains_lazy_ordering (options : LazyHandlerOptions)
    (hp : passesLazyChecks options) :
    (∀ steps, lazyChainedSteps (NewLazyAnteHandler options) = some steps →
      steps = [
        .NewSetUpContextDecorator,
        .NewLimitSimulationGasDecorator options.wasmConfig.SimulationGasLimit,
        .NewExtensionOptionsDecorator options.BaseOptions.ExtensionOptionChecker,
        .NewValidateBasicDecorator,
        .NewTxTimeoutHeightDecorator,
        .NewValidateMemoDecorator options.BaseOptions.AccountKeeper,
        .NewConsumeGasForTxSizeDecorator options.BaseOptions.AccountKeeper,
        .NewDeductFeeDecorator options.BaseOptions.AccountKeeper
          options.BaseOptions.BankKeeper options.BaseOptions.FeegrantKeeper
          options.BaseOptions.TxFeeChecker,
        .NewSetPubKeyDecorator options.BaseOptions.AccountKeeper,
        .NewValidateSigCountDecorator options.BaseOptions.AccountKeeper,
        .NewSigGasConsumeDecorator options.BaseOptions.AccountKeeper
          options.BaseOptions.SigGasConsumer,
        .NewSigVerificationDecorator options.BaseOptions.AccountKeeper
          options.BaseOptions.SignModeHandler,
        .NewIncrementSequenceDecorator options.BaseOptions.AccountKeeper,
        .NewPepDecorator options.PepKeeper options.TxEncoder options.KeyShareLane] ∧
      steps.map AnteDecorator.kind = [
        .contextSetup, .simulationGasLimiting, .extensionOptionsCheck, .basicValidation,
        .timeoutHeightCheck, .memoValidation, .txSizeGasConsumption, .feeDeduction,
        .publicKeyResolution, .signatureCountValidation,
        .signatureVerificationGasConsumption, .signatureVerification, .sequenceIncrement,
        .keyShareLane] ∧
      steps.map AnteDecorator.kind
        = [.contextSetup, .simulationGasLimiting] ++ (fullOrdering.drop 5).take 11
            ++ [.keyShareLane] ∧
      steps.length = 14 ∧
      (steps.map AnteDecorator.kind).getLast? = some .keyShareLane ∧
      (∀ k ∈ steps.map AnteDecorator.kind,
        k ≠ .contractTxCounting ∧ k ≠ .gasRegisterAdjustment ∧ k ≠ .circuitBreakerGate ∧
        k ≠ .redundantRelayCheck)) ∧
    (options.wasmConfig.SimulationGasLimit ≠ some 0 →
      ∃ h, NewLazyAnteHandler options = .ok h ∧ h.chain.length = 14 ∧
        h.chain.map AnteDecorator.kind = lazyOrdering) := by
  refine ⟨?_, fun hz => ⟨_, NewLazyAnteHandler_ok options hp hz, rfl, rfl⟩⟩
  intro steps hsteps
  cases hr : NewLazyAnteHandler options with
  | error p => simp [hr, lazyChainedSteps] at hsteps
  | ok h =>
    obtain ⟨-, hz⟩ := NewLazyAnteHandler_ok_inv options h hr
    rw [NewLazyAnteHandler_ok options hp hz] at hsteps
    simp only [lazyChainedSteps, ChainAnteDecorators, Option.some.injEq] at hsteps
    subst hsteps
    refine ⟨rfl, rfl, rfl, rfl, rfl, ?_⟩
    simp only [List.map, AnteDecorator.kind]
    decide

/-- Claim C3, at a concrete input: `sampleLazy` passes the presence checks and
the builder chains the 14 steps for it. -/
theorem NewLazyAnteHandler_chains_lazy_ordering_witness :
    passesLazyChecks sampleLazy ∧
    lazyChainedSteps (NewLazyAnteHandler sampleLazy) = some sampleLazyHandler.chain ∧
    sampleLazyHandler.chain.length = 14 ∧
    sampleLazyHandler.chain.map AnteDecorator.kind
      = [.contextSetup, .simulationGasLimiting] ++ (fullOrdering.drop 5).take 11
          ++ [.keyShareLane] ∧
    ∃ h, NewLazyAnteHandler sampleLazy = .ok h ∧ h.chain.length = 14 ∧
      h.chain.map AnteDecorator.kind = lazyOrdering :=
  have hp : passesLazyChecks sampleLazy := by decide
  have hthm := NewLazyAnteHandler_chains_lazy_ordering sampleLazy hp
  have hl := hthm.1 sampleLazyHandler.chain rfl
  ⟨hp, rfl, hl.2.2.2.1, hl.2.2.1, hthm.2 (by decide)⟩

/-! ## Mandatory collaborators -/

/-- Claim C6, evaluated at the input where only the fee-grant keeper is absent:
`NewAnteHandler` returns a handler and no error, with the fee-deduction step
built from the nil fee-grant keeper, while `NewLazyAnteHandler` aborts with its
fee-grant message. -/
theorem NewAnteHandler_accepts_missing_feegrant_keeper :
    fullNoFeegrant.FeegrantKeeper = none ∧
    (∃ h, NewAnteHandler fullNoFeegrant = .ok (some h, none) ∧ h.chain.length = 17 ∧
      h.chain[10]? = some (.NewDeductFeeDecorator (some ⟨1⟩) (some ⟨2⟩) none (some ⟨7⟩))) ∧
    lazyNoFeegrant.BaseOptions.FeegrantKeeper = none ∧
    NewLazyAnteHandler lazyNoFeegrant
      = .error (.message "fee grant keeper is required for ante builder") :=
  ⟨rfl, ⟨_, rfl, rfl, rfl⟩, rfl, rfl⟩

/-- Claim C7 as stated fails: with the key-share lane and the transaction
encoder both absent and the four checked collaborators present,
`NewLazyAnteHandler` does not fail; it returns a handler whose last step holds
the two nil values. -/
theorem NewLazyAnteHandler_accepts_missing_lane_and_encoder :
    lazyNoLane.KeyShareLane = none ∧ lazyNoLane.TxEncoder = none ∧
    (∃ h, NewLazyAnteHandler lazyNoLane = .ok h ∧
      h.chain.getLast? = some (.NewPepDecorator ⟨15⟩ none none)) ∧
    ¬ ∃ p, NewLazyAnteHandler lazyNoLane = .error p :=
  ⟨rfl, rfl, ⟨_, rfl, rfl⟩, by
    rintro ⟨p, hp⟩
    have h : NewLazyAnteHandler lazyNoLane = .ok (ChainAnteDecorators _) :=
      NewLazyAnteHandler_ok lazyNoLane (by decide) (by decide)
    rw [h] at hp
    cases hp⟩

/-- Claim C7, amended. The lazy-lane builder does not check the key-share lane
or the transaction encoder: when the account keeper, bank keeper, sign-mode
handler and fee-grant keeper are present and the simulation gas limit is not a
pointer to zero, `NewLazyAnteHandler` returns a handler whatever the lane and
the encoder are (nil included), and hands both unchanged to the key-share-lane
step, the last step of the list; in general, whether the builder aborts, and
with which panic, does not depend on the lane or the encoder. -/
theorem NewLazyAnteHandler_does_not_check_lane_or_encoder (options : LazyHandlerOptions)
    (hp : passesLazyChecks options) (hz : options.wasmConfig.SimulationGasLimit ≠ some 0)
    (lane : KeyShareLane) (enc : TxEncoder) :
    (∃ h, NewLazyAnteHandler { options with KeyShareLane := lane, TxEncoder := enc } = .ok h ∧
      h.chain.length = 14 ∧
      h.chain.getLast? = some (.NewPepDecorator options.PepKeeper enc lane)) ∧
    (∀ (anyOptions : LazyHandlerOptions) (p : Panic),
      NewLazyAnteHandler anyOptions = .error p ↔
        NewLazyAnteHandler { anyOptions with KeyShareLane := lane, TxEncoder := enc }
          = .error p) := by
  refine ⟨⟨_, NewLazyAnteHandler_ok { options with KeyShareLane := lane, TxEncoder := enc }
      hp hz, rfl, rfl⟩, ?_⟩
  intro o p
  by_cases hq : passesLazyChecks o
  · have hq2 : passesLazyChecks { o with KeyShareLane := lane, TxEncoder := enc } := hq
    by_cases hl : o.wasmConfig.SimulationGasLimit = some 0
    · rw [NewLazyAnteHandler_zero_limit o hq hl,
        NewLazyAnteHandler_zero_limit { o with KeyShareLane := lane, TxEncoder := enc } hq2 hl]
    · rw [NewLazyAnteHandler_ok o hq hl,
        NewLazyAnteHandler_ok { o with KeyShareLane := lane, TxEncoder := enc } hq2 hl]
      constructor <;> intro hc <;> cases hc
  · have e : NewLazyAnteHandler { o with KeyShareLane := lane, TxEncoder := enc }
        = NewLazyAnteHandler o := by
      unfold NewLazyAnteHandler
      by_cases h1 : o.BaseOptions.AccountKeeper = none
      · rw [if_pos h1, if_pos (show ({ o with KeyShareLane := lane, TxEncoder := enc }
          : LazyHandlerOptions).BaseOptions.AccountKeeper = none from h1)]
      rw [if_neg h1, if_neg (show ¬ ({ o with KeyShareLane := lane, TxEncoder := enc }
          : LazyHandlerOptions).BaseOptions.AccountKeeper = none from h1)]
      by_cases h2 : o.BaseOptions.BankKeeper = none
      · rw [if_pos h2, if_pos (show ({ o with KeyShareLane := lane, TxEncoder := enc }
          : LazyHandlerOptions).BaseOptions.BankKeeper = none from h2)]
      rw [if_neg h2, if_neg (show ¬ ({ o with KeyShareLane := lane, TxEncoder := enc }
          : LazyHandlerOptions).BaseOptions.BankKeeper = none from h2)]
      by_cases h3 : o.BaseOptions.SignModeHandler = none
      · rw [if_pos h3, if_pos (show ({ o with KeyShareLane := lane, TxEncoder := enc }
          : LazyHandlerOptions).BaseOptions.SignModeHandler = none from h3)]
      rw [if_neg h3, if_neg (show ¬ ({ o with KeyShareLane := lane, TxEncoder := enc }
          : LazyHandlerOptions).BaseOptions.SignModeHandler = none from h3)]
      by_cases h4 : o.BaseOptions.FeegrantKeeper = none
      · rw [if_pos h4, if_pos (show ({ o with KeyShareLane := lane, TxEncoder := enc }
          : LazyHandlerOptions).BaseOptions.FeegrantKeeper = none from h4)]
      exact absurd ⟨h1, h2, h3, h4⟩ hq
    rw [e]

/-- Claim C7, amended, at a concrete input: `sampleLazy` with both values set
to nil. -/
theorem NewLazyAnteHandler_does_not_check_lane_or_encoder_witness :
    passesLazyChecks sampleLazy ∧ sampleLazy.wasmConfig.SimulationGasLimit ≠ some 0 ∧
    ∃ h, NewLazyAnteHandler { sampleLazy with KeyShareLane := none, TxEncoder := none }
        = .ok h ∧
      h.chain.length = 14 ∧
      h.chain.getLast? = some (.NewPepDecorator sampleLazy.PepKeeper none none) :=
  have hp : passesLazyChecks sampleLazy := by decide
  have hz : sampleLazy.wasmConfig.SimulationGasLimit ≠ some 0 := by decide
  ⟨hp, hz, (NewLazyAnteHandler_does_not_check_lane_or_encoder sampleLazy hp hz none none).1⟩

/-- Claim C8. For every collaborator set in which the account keeper, the bank
keeper or the sign-mode handler is absent, `NewAnteHandler` returns a
configuration error together with no handler, `NewLazyAnteHandler` aborts with
a configuration message without producing a handler, and neither chains a
step list. -/
theorem base_collaborators_are_mandatory (base : ante.HandlerOptions)
    (hb : base.AccountKeeper = none ∨ base.BankKeeper = none ∨ base.SignModeHandler = none) :
    (∀ options : HandlerOptions, options.toHandlerOptions = base →
      (∃ msg, NewAnteHandler options = .ok (none, some msg) ∧
        msg ∈ ["account keeper is required for ante builder",
               "bank keeper is required for ante builder",
               "sign mode handler is required for ante builder"]) ∧
      chainedSteps (NewAnteHandler options) = none) ∧
    (∀ options : LazyHandlerOptions, options.BaseOptions = base →
      (∃ msg, NewLazyAnteHandler options = .error (.message msg) ∧
        msg ∈ ["account keeper is required for ante builder",
               "bank keeper is required for ante builder",
               "sign mode handler is required for ante builder"]) ∧
      lazyChainedSteps (NewLazyAnteHandler options) = none) := by
  constructor
  · intro options hbase
    subst hbase
    have hmsg : ∃ msg, NewAnteHandler options = .ok (none, some msg) ∧
        msg ∈ ["account keeper is required for ante builder",
               "bank keeper is required for ante builder",
               "sign mode handler is required for ante builder"] := by
      unfold NewAnteHandler
      by_cases h1 : options.AccountKeeper = none
      · exact ⟨_, if_pos h1, by simp⟩
      rw [if_neg h1]
      by_cases h2 : options.BankKeeper = none
      · exact ⟨_, if_pos h2, by simp⟩
      rw [if_neg h2]
      by_cases h3 : options.SignModeHandler = none
      · exact ⟨_, if_pos h3, by simp⟩
      rcases hb with hb | hb | hb
      · exact absurd hb h1
      · exact absurd hb h2
      · exact absurd hb h3
    refine ⟨hmsg, ?_⟩
    obtain ⟨msg, hm, -⟩ := hmsg
    rw [hm]
    rfl
  · intro options hbase
    subst hbase
    have hmsg : ∃ msg, NewLazyAnteHandler options = .error (.message msg) ∧
        msg ∈ ["account keeper is required for ante builder",
               "bank keeper is required for ante builder",
               "sign mode handler is required for ante builder"] := by
      unfold NewLazyAnteHandler
      by_cases h1 : options.BaseOptions.AccountKeeper = none
      · exact ⟨_, if_pos h1, by simp⟩
      rw [if_neg h1]
      by_cases h2 : options.BaseOptions.BankKeeper = none
      · exact ⟨_, if_pos h2, by simp⟩
      rw [if_neg h2]
      by_cases h3 : options.BaseOptions.SignModeHandler = none
      · exact ⟨_, if_pos h3, by simp⟩
      rcases hb with hb | hb | hb
      · exact absurd hb h1
      · exact absurd hb h2
      · exact absurd hb h3
    refine ⟨hmsg, ?_⟩
    obtain ⟨msg, hm, -⟩ := hmsg
    rw [hm]
    rfl

/-- Claim C8, at a concrete input: a collaborator set whose bank keeper is
absent. -/
theorem base_collaborators_are_mandatory_witness :
    baseNoBank.BankKeeper = none ∧
    NewAnteHandler { sampleFull with toHandlerOptions := baseNoBank }
      = .ok (none, some "bank keeper is required for ante builder") ∧
    NewLazyAnteHandler { sampleLazy with BaseOptions := baseNoBank }
      = .error (.message "bank keeper is required for ante builder") ∧
    (∀ options : HandlerOptions, options.toHandlerOptions = baseNoBank →
      chainedSteps (NewAnteHandler options) = none) ∧
    (∀ options : LazyHandlerOptions, options.BaseOptions = baseNoBank →
      lazyChainedSteps (NewLazyAnteHandler options) = none) :=
  ⟨rfl, rfl, rfl,
   fun options hbase =>
     ((base_collaborators_are_mandatory baseNoBank (Or.inr (Or.inl rfl))).1 options hbase).2,
   fun options hbase =>
     ((base_collaborators_are_mandatory baseNoBank (Or.inr (Or.inl rfl))).2 options hbase).2⟩

/-- Claim C9. For every `HandlerOptions` in which the contract-execution
config, the tx-counter store or the circuit-breaker keeper is absent,
`NewAnteHandler` returns a non-nil error and a nil handler; the lazy-lane
builder has no such requirement: on the same base collaborators it returns a
handler exactly when its own four checks pass and its simulation gas limit is
not a pointer to zero. -/
theorem contract_collaborators_are_mandatory_for_full_only (options : HandlerOptions)
    (hm : options.WasmConfig = none ∨ options.TXCounterStoreService = none ∨
      options.CircuitKeeper = none) :
    (∃ msg, NewAnteHandler options = .ok (none, some msg)) ∧
    chainedSteps (NewAnteHandler options) = none ∧
    (∀ lazyOptions : LazyHandlerOptions,
      lazyOptions.BaseOptions = options.toHandlerOptions →
      ((∃ h, NewLazyAnteHandler lazyOptions = .ok h ∧ h.chain.length = 14) ↔
        (passesLazyChecks lazyOptions ∧
          lazyOptions.wasmConfig.SimulationGasLimit ≠ some 0))) := by
  have hfail : ∃ msg, NewAnteHandler options = .ok (none, some msg) := by
    apply NewAnteHandler_checks_fail
    rintro ⟨-, -, -, h4, h5, h6⟩
    rcases hm with hm | hm | hm
    · exact h4 hm
    · exact h5 hm
    · exact h6 hm
  refine ⟨hfail, ?_, ?_⟩
  · obtain ⟨msg, hmsg⟩ := hfail
    rw [hmsg]
    rfl
  · intro lazyOptions _
    constructor
    · rintro ⟨h, hh, -⟩
      exact NewLazyAnteHandler_ok_inv lazyOptions h hh
    · rintro ⟨hp, hz⟩
      exact ⟨_, NewLazyAnteHandler_ok lazyOptions hp hz, rfl⟩

/-- Claim C9, at a concrete input: the circuit-breaker keeper is absent; the
full builder returns the circuit-keeper error, the lazy-lane builder succeeds
on the same base collaborators. -/
theorem contract_collaborators_are_mandatory_for_full_only_witness :
    fullNoCircuit.CircuitKeeper = none ∧
    NewAnteHandler fullNoCircuit
      = .ok (none, some "circuit keeper is required for ante builder") ∧
    (∃ msg, NewAnteHandler fullNoCircuit = .ok (none, some msg)) ∧
    chainedSteps (NewAnteHandler fullNoCircuit) = none ∧
    ∃ h, NewLazyAnteHandler sampleLazy = .ok h ∧ h.chain.length = 14 :=
  have hthm := contract_collaborators_are_mandatory_for_full_only fullNoCircuit
    (Or.inr (Or.inr rfl))
  ⟨rfl, rfl, hthm.1, hthm.2.1, (hthm.2.2 sampleLazy rfl).2 ⟨by decide, by decide⟩⟩

/-! ## Builder outcomes -/

/-- Claim C10 as stated fails: for a collaborator set without an account
keeper, `NewLazyAnteHandler` neither returns a handler nor returns an error to
its caller, it aborts with a panic; and for a collaborator set that passes
every presence check, has its contract keeper and a simulation gas limit of
zero, `NewAnteHandler` aborts with a panic as well. -/
theorem NewLazyAnteHandler_aborts_by_panic :
    lazyNoAccount.BaseOptions.AccountKeeper = none ∧
    NewLazyAnteHandler lazyNoAccount
      = .error (.message "account keeper is required for ante builder") ∧
    (¬ ∃ h, NewLazyAnteHandler lazyNoAccount = .ok h) ∧
    passesFullChecks fullZeroLimit ∧ fullZeroLimit.WasmKeeper ≠ none ∧
    NewAnteHandler fullZeroLimit = .error (.message "gas limit must not be zero") :=
  have hno : ¬ ∃ h, NewLazyAnteHandler lazyNoAccount = .ok h := by
    rintro ⟨h, hh⟩
    have hp : NewLazyAnteHandler lazyNoAccount
        = .error (.message "account keeper is required for ante builder") := rfl
    rw [hp] at hh
    cases hh
  ⟨rfl, rfl, hno, by decide, by decide, rfl⟩

/-- Claim C10, amended. `NewAnteHandler`, given a collaborator set whose
contract keeper is present and whose simulation gas limit is not a pointer to
zero, returns either a handler with a nil error or a nil handler with a
configuration error, and on no input a handler together with an error;
`NewLazyAnteHandler` has no error result and, on every collaborator set,
either returns a handler or aborts with a panic that carries a message: one of
its four configuration messages, or `gas limit must not be zero`. -/
theorem builder_outcomes (options : HandlerOptions) (wasmKeeper : WasmKeeper)
    (hw : options.WasmKeeper = some wasmKeeper)
    (hz : ∀ wasmConfig, options.WasmConfig = some wasmConfig →
      wasmConfig.SimulationGasLimit ≠ some 0)
    (lazyOptions : LazyHandlerOptions) :
    ((∃ h, NewAnteHandler options = .ok (some h, none) ∧ passesFullChecks options) ∨
      (∃ msg, NewAnteHandler options = .ok (none, some msg) ∧ ¬ passesFullChecks options)) ∧
    (∀ (anyOptions : HandlerOptions) (h : AnteHandler) (e : Option String),
      NewAnteHandler anyOptions = .ok (some h, e) → e = none) ∧
    ((∃ h, NewLazyAnteHandler lazyOptions = .ok h ∧ passesLazyChecks lazyOptions ∧
        lazyOptions.wasmConfig.SimulationGasLimit ≠ some 0) ∨
      (∃ msg, NewLazyAnteHandler lazyOptions = .error (.message msg) ∧
        ¬ (passesLazyChecks lazyOptions ∧
          lazyOptions.wasmConfig.SimulationGasLimit ≠ some 0) ∧
        msg ∈ ["account keeper is required for ante builder",
               "bank keeper is required for ante builder",
               "sign mode handler is required for ante builder",
               "fee grant keeper is required for ante builder",
               "gas limit must not be zero"])) := by
  refine ⟨?_, fun o h e hr => (NewAnteHandler_kinds o h e hr).2, ?_⟩
  · by_cases hp : passesFullChecks options
    · left
      cases hc : options.WasmConfig with
      | none => exact absurd hc hp.2.2.2.1
      | some wc => exact ⟨_, NewAnteHandler_ok options wc wasmKeeper hp hc hw (hz wc hc), hp⟩
    · right
      obtain ⟨msg, hmsg⟩ := NewAnteHandler_checks_fail options hp
      exact ⟨msg, hmsg, hp⟩
  · by_cases hp : passesLazyChecks lazyOptions
    · by_cases hl : lazyOptions.wasmConfig.SimulationGasLimit = some 0
      · right
        exact ⟨_, NewLazyAnteHandler_zero_limit lazyOptions hp hl, fun hc => hc.2 hl,
          by simp⟩
      · left
        exact ⟨_, NewLazyAnteHandler_ok lazyOptions hp hl, hp, hl⟩
    · right
      obtain ⟨msg, hmsg, hmem⟩ := NewLazyAnteHandler_checks_fail lazyOptions hp
      refine ⟨msg, hmsg, fun hc => hp hc.1, ?_⟩
      simp only [List.mem_cons, List.mem_singleton, List.not_mem_nil, or_false] at hmem ⊢
      rcases hmem with h | h | h | h
      · exact Or.inl h
      · exact Or.inr (Or.inl h)
      · exact Or.inr (Or.inr (Or.inl h))
      · exact Or.inr (Or.inr (Or.inr (Or.inl h)))

/-- Claim C10, amended, at concrete inputs: `fullNoCircuit`, whose contract
keeper is present and whose limit is not zero, and `lazyZeroLimit`. -/
theorem builder_outcomes_witness :
    fullNoCircuit.WasmKeeper = some ⟨some ⟨9⟩⟩ ∧
    ((∃ h, NewAnteHandler fullNoCircuit = .ok (some h, none) ∧
        passesFullChecks fullNoCircuit) ∨
      (∃ msg, NewAnteHandler fullNoCircuit = .ok (none, some msg) ∧
        ¬ passesFullChecks fullNoCircuit)) ∧
    ((∃ h, NewLazyAnteHandler lazyZeroLimit = .ok h ∧ passesLazyChecks lazyZeroLimit ∧
        lazyZeroLimit.wasmConfig.SimulationGasLimit ≠ some 0) ∨
      (∃ msg, NewLazyAnteHandler lazyZeroLimit = .error (.message msg) ∧
        ¬ (passesLazyChecks lazyZeroLimit ∧
          lazyZeroLimit.wasmConfig.SimulationGasLimit ≠ some 0) ∧
        msg ∈ ["account keeper is required for ante builder",
               "bank keeper is required for ante builder",
               "sign mode handler is required for ante builder",
               "fee grant keeper is required for ante builder",
               "gas limit must not be zero"])) :=
  have hthm := builder_outcomes fullNoCircuit ⟨some ⟨9⟩⟩ rfl
    (by
      intro wc hc
      have e : wc = ⟨some 1000000⟩ := (Option.some.inj hc).symm
      subst e
      decide)
    lazyZeroLimit
  ⟨rfl, hthm.1, hthm.2.2⟩

end Lazychain
